import Mathlib

set_option autoImplicit false

/-!
Verification development for the ai-trip-server repository.

Each definition in this file is a shallow embedding of a function of the
repository (file and line references in the doc comments).  JavaScript
strings are modelled as `List Char` in the cache component (so that the
`toLowerCase`/`trim` normalization can be reasoned about character by
character) and as Lean `String` elsewhere.  External collaborators (the
OpenAI HTTP endpoint, the nodemailer transport, the md5 digest) enter the
model as explicit parameters: an environment function giving the outcome of
the n-th network call, or an abstract digest function.
-/

namespace TripServer

/-- JavaScript string, modelled as its list of code points. -/
abbrev JsStr : Type := List Char

/-- Whitespace class used by `String.prototype.trim`, restricted to the ASCII
whitespace characters (space, tab, CR, LF). -/
def isWsChar (c : Char) : Bool := c.isWhitespace

/-- Model of `String.prototype.toLowerCase`, restricted to ASCII case mapping. -/
def toLowerStr (s : JsStr) : JsStr := s.map Char.toLower

/-- Left half of `String.prototype.trim`: drop leading whitespace. -/
def trimLeftStr (s : JsStr) : JsStr := s.dropWhile isWsChar

/-- Right half of `String.prototype.trim`: drop trailing whitespace. -/
def trimRightStr (s : JsStr) : JsStr := (s.reverse.dropWhile isWsChar).reverse

/-- Model of `String.prototype.trim`: drop leading and trailing whitespace. -/
def trimStr (s : JsStr) : JsStr := trimRightStr (trimLeftStr s)

/-- The normalized record that `CacheService.generateKey`
(src/services/cacheService.js lines 47-63) feeds to
`JSON.stringify` and then md5: destination and interests lower-cased and
trimmed, the remaining fields trimmed.  A JS `undefined` field (the `?.`
chain) is `none`. -/
structure RouteKeyData where
  city : Option JsStr
  startDate : Option JsStr
  endDate : Option JsStr
  budget : Option JsStr
  interests : Option JsStr
  people : Option JsStr
deriving DecidableEq

/-- The normalization step of `CacheService.generateKey`
(src/services/cacheService.js lines 48-55): `city?.toLowerCase().trim()`,
`startDate?.trim()`, `endDate?.trim()`, `budget?.trim()`,
`interests?.toLowerCase().trim()`, `people?.trim()`. -/
def normalizeKeyData (city startDate endDate budget interests people : Option JsStr) :
    RouteKeyData where
  city := city.map (fun s => trimStr (toLowerStr s))
  startDate := startDate.map trimStr
  endDate := endDate.map trimStr
  budget := budget.map trimStr
  interests := interests.map (fun s => trimStr (toLowerStr s))
  people := people.map trimStr

/-- Embedding of `CacheService.generateKey` (src/services/cacheService.js lines 47-63):
`"route:" + md5hex(JSON.stringify(normalized))`.  The composition of
`JSON.stringify` with the md5 hex digest is external to the repository
(Node's `crypto` module) and is passed in as the abstract digest function
`digest`. -/
def generateKey (digest : RouteKeyData → JsStr)
    (city startDate endDate budget interests people : Option JsStr) : JsStr :=
  "route:".toList ++ digest (normalizeKeyData city startDate endDate budget interests people)

/-- Strings `s` and `t` differ only by letter case and by surrounding whitespace:
each is some all-whitespace padding around a core, and the cores agree after
case folding. -/
def eqModCaseWs (s t : JsStr) : Prop :=
  ∃ p₁ c₁ q₁ p₂ c₂ q₂ : List Char,
    (∀ c ∈ p₁, isWsChar c) ∧ (∀ c ∈ q₁, isWsChar c) ∧
    (∀ c ∈ p₂, isWsChar c) ∧ (∀ c ∈ q₂, isWsChar c) ∧
    toLowerStr c₁ = toLowerStr c₂ ∧
    s = p₁ ++ c₁ ++ q₁ ∧ t = p₂ ++ c₂ ++ q₂

/-- Lift of `eqModCaseWs` to possibly-absent fields. -/
def optEqModCaseWs : Option JsStr → Option JsStr → Prop
  | none, none => True
  | some s, some t => eqModCaseWs s t
  | _, _ => False

/-- The value object `CacheService.set` stores
(src/services/cacheService.js lines 104-114): the generated route together
with an echo of the request fields and the creation instant (`cachedAt`, an
ISO string in the source, modelled as the millisecond timestamp).  The
`...metadata` spread (model/tokens/finishReason, keys disjoint from the fixed
ones) is not read by any claim and is omitted. -/
structure RouteCacheValue where
  route : JsStr
  city : Option JsStr
  startDate : Option JsStr
  endDate : Option JsStr
  budget : Option JsStr
  interests : Option JsStr
  people : Option JsStr
  cachedAt : Nat
deriving DecidableEq

/-- One entry of the underlying node-cache store: the value plus its absolute
expiry instant in milliseconds (`0` means no expiry, node-cache's encoding of
an unlimited `stdTTL`). -/
structure StoreEntry where
  value : RouteCacheValue
  expiry : Nat
deriving DecidableEq

/-- The node-cache key/value store, newest binding first. -/
abbrev CacheStore : Type := List (JsStr × StoreEntry)

/-- Modelled from the spec: the external node-cache dependency
(`new NodeCache({stdTTL, checkperiod})`, src/services/cacheService.js
lines 13-19) is not part of the repository; per §4.1/§6 of the spec each
entry carries the absolute expiry `createdAt + ttlSeconds` and `get` treats
an expired-but-not-yet-swept entry as a miss (lazy expiry), with the strict
comparison `expiry < now`.  `set` inserts or replaces wholesale. -/
def storeSet (store : CacheStore) (key : JsStr) (e : StoreEntry) : CacheStore :=
  (key, e) :: store

/-- Modelled from the spec: node-cache `get` with lazy expiry — a present
entry whose expiry instant lies strictly before the current clock is a miss. -/
def storeGet (store : CacheStore) (now : Nat) (key : JsStr) : Option RouteCacheValue :=
  match store.lookup key with
  | none => none
  | some e => if e.expiry ≠ 0 ∧ e.expiry < now then none else some e.value

/-- The cache configuration (src/config/index.js `config.cache`): the enabled
toggle and the TTL in seconds. -/
structure CacheCfg where
  enabled : Bool
  ttl : Nat

/-- Embedding of `CacheService.get` (src/services/cacheService.js lines 68-92): miss when
disabled, otherwise look the generated key up in the store. -/
def cacheGet (cfg : CacheCfg) (digest : RouteKeyData → JsStr) (store : CacheStore) (now : Nat)
    (city startDate endDate budget interests people : Option JsStr) :
    Option RouteCacheValue :=
  if cfg.enabled then
    storeGet store now (generateKey digest city startDate endDate budget interests people)
  else
    none

/-- Embedding of `CacheService.set` (src/services/cacheService.js lines 97-131): no-op
returning `false` when disabled, otherwise store the value object under the
generated key with the configured TTL and report success. -/
def cacheSet (cfg : CacheCfg) (digest : RouteKeyData → JsStr) (store : CacheStore) (now : Nat)
    (city startDate endDate budget interests people : Option JsStr) (route : JsStr) :
    CacheStore × Bool :=
  if cfg.enabled then
    (storeSet store (generateKey digest city startDate endDate budget interests people)
      ⟨⟨route, city, startDate, endDate, budget, interests, people, now⟩,
        if cfg.ttl = 0 then 0 else now + cfg.ttl * 1000⟩, true)
  else
    (store, false)

/-- Bridge between `JsStr` and `String` for `String.prototype.includes`. -/
def jsIncludes (s pat : String) : Bool := decide (pat.toList <:+: s.toList)

/-- The slice of `config.openai` (src/config/index.js lines 12-21) that
`generateRoute` branches on.  `maxTokens` is mutable state on the service
object in the source; here it is threaded explicitly. -/
structure GenCfg where
  defaultModel : String
  fallbackModel : String
  maxTokens : Nat
  maxRetries : Nat
deriving DecidableEq

/-- Outcome of one HTTP call to the generation endpoint, as observed by
`generateRoute` (src/services/openaiService.js): a non-ok status, a parsed
successful body (content and finish_reason of choices[0], `""` standing for
an absent field), an abort by the timeout controller, or another thrown
error carrying its message. -/
inductive CallOutcome where
  | httpError (status : Nat)
  | success (content : String) (finishReason : String)
  | timeout
  | netError (msg : String)
deriving DecidableEq

/-- The value `generateRoute` returns (src/services/openaiService.js
lines 187-193); the usage/duration fields carry no control flow and are
omitted. -/
structure GenResult where
  content : String
  finishReason : String
  model : String
deriving DecidableEq

/-- The errors `generateRoute` can throw: the fatal API error of line 124,
the timeout error of line 225, or a rethrown network error (line 246). -/
inductive GenError where
  | apiError (status : Nat)
  | timeoutError
  | network (msg : String)
deriving DecidableEq

/-- One HTTP request issued by `generateRoute`: the model and max_tokens of
its body (src/services/openaiService.js lines 80-85). -/
structure GenCall where
  model : String
  maxTokens : Nat
deriving DecidableEq

set_option linter.unusedVariables false in
/-- Shallow embedding of `OpenAIService.generateRoute`
(src/services/openaiService.js lines 55-248).  `env n` is the outcome of the
n-th HTTP call made during the whole invocation (the source performs the
calls sequentially; `idx` is the index of the next one).  `maxTokens` is the
current value of the mutable `this.maxTokens`; the truncation fallback bumps
it to `min 4000 (maxTokens + 2000)` for the fallback call and restores it
afterwards (lines 160-172), which in this pure rendering means only the
fallback call sees the bumped value.  Returns the JS return-or-throw as an
`Except` together with the list of HTTP calls issued, in order. -/
def generateRoute (cfg : GenCfg) (env : Nat → CallOutcome) (idx : Nat)
    (maxTokens : Nat) (model : String) (useFb : Bool) (retryCount : Nat) :
    Except GenError GenResult × List GenCall :=
  let call : GenCall := ⟨model, maxTokens⟩
  match env idx with
  | .httpError status =>
    if h : retryCount < cfg.maxRetries ∧ (status = 429 ∨ 500 ≤ status) then
      let r := generateRoute cfg env (idx + 1) maxTokens model useFb (retryCount + 1)
      (r.1, call :: r.2)
    else
      (.error (.apiError status), [call])
  | .success rawContent rawFinish =>
    let content := if rawContent = "" then "Маршрут не удалось создать." else rawContent
    let finishReason := if rawFinish = "" then "unknown" else rawFinish
    if h : finishReason = "length" ∧ useFb = true ∧ model ≠ cfg.fallbackModel ∧ retryCount = 0 then
      let fb := generateRoute cfg env (idx + 1) (min 4000 (maxTokens + 2000))
        cfg.fallbackModel false 0
      match fb.1 with
      | .ok r => (.ok r, call :: fb.2)
      | .error _ => (.ok ⟨content, finishReason, model⟩, call :: fb.2)
    else
      (.ok ⟨content, finishReason, model⟩, [call])
  | .timeout =>
    if _h : retryCount < cfg.maxRetries then
      let r := generateRoute cfg env (idx + 1) maxTokens model useFb (retryCount + 1)
      (r.1, call :: r.2)
    else if h2 : useFb = true ∧ model ≠ cfg.fallbackModel ∧ retryCount = 0 then
      let r := generateRoute cfg env (idx + 1) maxTokens cfg.fallbackModel false 0
      (r.1, call :: r.2)
    else
      (.error .timeoutError, [call])
  | .netError msg =>
    if h : retryCount < cfg.maxRetries ∧
        (jsIncludes msg "ECONNRESET" = true ∨ jsIncludes msg "ETIMEDOUT" = true ∨
          jsIncludes msg "ENOTFOUND" = true) then
      let r := generateRoute cfg env (idx + 1) maxTokens model useFb (retryCount + 1)
      (r.1, call :: r.2)
    else
      (.error (.network msg), [call])
termination_by (if useFb then cfg.maxRetries + 1 else 0) + (cfg.maxRetries - retryCount)
decreasing_by
  · cases useFb <;> simp <;> omega
  · rcases h with ⟨-, h2, -, h4⟩
    subst h2 h4
    simp
  · cases useFb <;> simp <;> omega
  · rcases h2 with ⟨h2, -, h4⟩
    subst h2 h4
    simp
  · cases useFb <;> simp <;> omega

/-- Entry into `generateRoute` with the default options of
src/services/openaiService.js lines 56-60: primary model, fallback allowed,
`retryCount = 0`, with the configured `this.maxTokens`. -/
def generateRouteTop (cfg : GenCfg) (env : Nat → CallOutcome) :
    Except GenError GenResult × List GenCall :=
  generateRoute cfg env 0 cfg.maxTokens cfg.defaultModel true 0

/-- The error nodemailer rejects with, as far as `sendRouteEmail` inspects it
(src/services/emailService.js lines 239-243): its `code` and `responseCode`
properties, each possibly absent. -/
structure MailErr where
  code : Option String
  responseCode : Option Nat
deriving DecidableEq

/-- Outcome of one `transporter.sendMail` call: resolution with a message id,
or rejection with an error. -/
inductive MailOutcome where
  | sent (messageId : String)
  | failed (e : MailErr)
deriving DecidableEq

/-- The slice of `config.email` (src/config/index.js lines 50-51) that
`sendRouteEmail` branches on. -/
structure EmailCfg where
  maxRetries : Nat
deriving DecidableEq

/-- The retry test of src/services/emailService.js lines 239-243:
`error.code === "ECONNECTION" || error.code === "ETIMEDOUT" ||
error.code === "ESOCKET" || error.responseCode >= 500` (an absent
`responseCode` compares false). -/
def mailShouldRetry (e : MailErr) : Prop :=
  e.code = some "ECONNECTION" ∨ e.code = some "ETIMEDOUT" ∨ e.code = some "ESOCKET" ∨
    (∃ rc, e.responseCode = some rc ∧ 500 ≤ rc)

instance (e : MailErr) : Decidable (mailShouldRetry e) := by
  unfold mailShouldRetry
  exact inferInstance

/-- What `sendRouteEmail` returns on success
(src/services/emailService.js lines 225-229); the transport response string
is omitted.  Note the object carries no attempt counter. -/
structure SendOk where
  success : Bool
  messageId : String
deriving DecidableEq

/-- The errors `sendRouteEmail` can throw: the two guard errors of lines
187-193 and a transport rejection rethrown at line 261. -/
inductive SendErr where
  | noTransporter
  | noRecipient
  | transport (e : MailErr)
deriving DecidableEq

/-- Shallow embedding of `EmailService.sendRouteEmail`
(src/services/emailService.js lines 177-263).  `env n` is the outcome of the
n-th `transporter.sendMail` call of this invocation; `transporterOk` is
whether `this.transporter` was initialized and `recipient` is the `to`
field (`none` or the empty string are falsy).  Returns the JS
return-or-throw together with the number of `sendMail` attempts made. -/
def sendRouteEmail (cfg : EmailCfg) (transporterOk : Bool) (recipient : Option String)
    (env : Nat → MailOutcome) (idx : Nat) (retryCount : Nat) :
    Except SendErr SendOk × Nat :=
  if transporterOk = false then
    (.error .noTransporter, 0)
  else if recipient = none ∨ recipient = some "" then
    (.error .noRecipient, 0)
  else
    match env idx with
    | .sent messageId => (.ok ⟨true, messageId⟩, 1)
    | .failed e =>
      if _h : retryCount < cfg.maxRetries ∧ mailShouldRetry e then
        let r := sendRouteEmail cfg transporterOk recipient env (idx + 1) (retryCount + 1)
        (r.1, r.2 + 1)
      else
        (.error (.transport e), 1)
termination_by cfg.maxRetries - retryCount
decreasing_by omega

/-- Entry into `sendRouteEmail` with the default `retryCount = 0`
(src/services/emailService.js line 184). -/
def sendRouteEmailTop (cfg : EmailCfg) (transporterOk : Bool) (recipient : Option String)
    (env : Nat → MailOutcome) : Except SendErr SendOk × Nat :=
  sendRouteEmail cfg transporterOk recipient env 0 0

/-- Shallow embedding of `EmailService.sendErrorNotification`
(src/services/emailService.js lines 268-295).  `fromAddr` is
`config.email.from`; when it is unset the function logs and returns.
Otherwise everything — building the mail options, dereferencing a possibly
null transporter, the `sendMail` rejection — happens inside the try block
and is represented by `attempt`; the catch clause swallows any error after
logging.  The result is the JS return-or-throw of the whole call. -/
def sendErrorNotification (fromAddr : Option String) (transporterOk : Bool)
    (send : MailOutcome) : Except MailErr Unit :=
  match fromAddr with
  | none => .ok ()
  | some _ =>
    let attempt : Except MailErr Unit :=
      if transporterOk = false then
        .error ⟨some "TYPEERR_NULL_TRANSPORTER", none⟩
      else
        match send with
        | .sent _ => .ok ()
        | .failed e => .error e
    match attempt with
    | .ok _ => .ok ()
    | .error _ => .ok ()

/-- The canonical form fields after Tilda parsing and normalization, as
consumed by `validateFormData` (src/utils/validator.js lines 7-39); an
absent field is `none`. -/
structure FormData where
  city : Option String
  email : Option String
  startDate : Option String
  endDate : Option String
  budget : Option String
  interests : Option String
  people : Option String
  name : Option String
  phone : Option String
  notes : Option String
deriving DecidableEq

/-- Joi `city` rule: `Joi.string().min(2).max(100).required()`. -/
def joiCityOk : Option String → Bool
  | none => false
  | some s => decide (2 ≤ s.length ∧ s.length ≤ 100)

/-- Joi `email` rule: `Joi.string().email().required()`.  Joi's email-format
test is external and abstracted as `emailFormat`; a missing or empty value is
invalid for every such test. -/
def joiEmailOk (emailFormat : String → Bool) : Option String → Bool
  | none => false
  | some s => decide (¬s = "") && emailFormat s

/-- Joi rule for the optional string fields
(`Joi.string().allow("", null).max(n).optional()`). -/
def joiOptMax (maxLen : Nat) : Option String → Bool
  | none => true
  | some s => decide (s.length ≤ maxLen)

/-- Joi `people` rule: `Joi.string().pattern(/^\d+$/).default("1")` — absent
defaults to "1", present must be one or more digits. -/
def joiPeopleOk : Option String → Bool
  | none => true
  | some s => decide (¬s = "") && s.toList.all Char.isDigit

/-- Embedding of `validateFormData` (src/utils/validator.js lines 44-70): validate against
`formDataSchema`; on success return the validated value (with the `people`
default applied), on any violation return the invalid marker (`none`). -/
def validateFormData (emailFormat : String → Bool) (d : FormData) : Option FormData :=
  if joiCityOk d.city && joiEmailOk emailFormat d.email &&
      joiOptMax 500 d.budget && joiOptMax 1000 d.interests && joiPeopleOk d.people &&
      joiOptMax 200 d.name && joiOptMax 50 d.phone && joiOptMax 2000 d.notes then
    some { d with people := some (d.people.getD "1") }
  else
    none

/-- One HTTP response written by the route handler:
`res.status(200).json({ success, message })` (src router, `sendResponse`,
lines 17-21 of the `/api/route` module). -/
structure RouteResponse where
  status : Nat
  success : Bool
  message : String
deriving DecidableEq

/-- Observable footprint of one `POST /api/route` handling, including the
detached background continuation: the responses written, in order, and the
number of generation calls, cache writes, route-email deliveries and
error-notification calls it performed. -/
structure HandlerState where
  responseSent : Bool
  responses : List RouteResponse
  genCalls : Nat
  cacheSets : Nat
  emailSends : Nat
  notifySends : Nat
deriving DecidableEq

/-- Handler state before anything ran: `let responseSent = false`. -/
def initState : HandlerState := ⟨false, [], 0, 0, 0, 0⟩

/-- Embedding of `sendResponse` of the `/api/route` handler (lines 17-21): a no-op once a
response was sent, otherwise write `res.status(200).json({success, message})`
and latch the guard. -/
def sendResponse (success : Bool) (message : String) (st : HandlerState) : HandlerState :=
  if st.responseSent then st
  else
    { st with
      responseSent := true
      responses := st.responses ++ [⟨200, success, message⟩] }

/-- Ack sent on failed validation (lines 44-47). -/
def msgAccepted : String :=
  "Заявка принята! Менеджер свяжется с вами для уточнения деталей."

/-- Ack sent on both the cache-hit and the miss path (lines 82-85, 112-115). -/
def msgProcessing : String :=
  "Маршрут генерируется. Проверьте почту в течение 5 минут!"

/-- Ack sent by the top-level catch handler (lines 209-212). -/
def msgCatchAll : String :=
  "Заявка принята! Мы обработаем её в ближайшее время."

/-- How the synchronous prefix of the handler body behaves: the Tilda
parse/normalize collaborators either produce canonical fields or throw
(caught by the handler's top-level catch). -/
inductive ParseOutcome where
  | ok (fd : FormData)
  | throws
deriving DecidableEq

/-- The collaborators of one `/api/route` invocation: the parse outcome, the
Joi email-format test, the cache-lookup result (the `route` field of a hit),
what `openaiService.generateRoute` resolves or rejects with on the built
prompt, what `emailService.sendRouteEmail` resolves or rejects with, and
whether error notification is configured
(`config.email.from || config.email.smtp.auth?.user`). -/
structure HandlerEnv where
  parse : ParseOutcome
  emailFormat : String → Bool
  cached : Option String
  gen : Except GenError GenResult
  emailSend : Except SendErr SendOk
  notifyConfigured : Bool

/-- Line 187-198 of the route module: on a background failure, call
`sendErrorNotification` when an operator address is configured; its own
failure is caught and only logged. -/
def notifyOnError (env : HandlerEnv) (st : HandlerState) : HandlerState :=
  if env.notifyConfigured then { st with notifySends := st.notifySends + 1 } else st

/-- Shallow embedding of the `POST /api/route` handler (the route module of
the repository, lines 14-215), covering the synchronous path and the
detached background continuation it spawns.  Parse throw → top-level catch
(guarded generic ack).  Invalid form → generic ack, stop.  Cache hit →
processing ack, then one detached `sendRouteEmail` whose failure is only
logged.  Cache miss → processing ack, then detached: one `generateRoute`
call; on its failure, or an empty `content`, or a `sendRouteEmail` failure,
the error notification path; on success one `cacheService.set` and one
`sendRouteEmail`. -/
def handleRoute (env : HandlerEnv) : HandlerState :=
  match env.parse with
  | .throws => sendResponse true msgCatchAll initState
  | .ok fd =>
    match validateFormData env.emailFormat fd with
    | none => sendResponse true msgAccepted initState
    | some _ =>
      match env.cached with
      | some _ =>
        let st := sendResponse true msgProcessing initState
        { st with emailSends := st.emailSends + 1 }
      | none =>
        let st := sendResponse true msgProcessing initState
        let st := { st with genCalls := st.genCalls + 1 }
        match env.gen with
        | .error _ => notifyOnError env st
        | .ok r =>
          if r.content = "" then
            notifyOnError env st
          else
            let st := { st with cacheSets := st.cacheSets + 1 }
            let st := { st with emailSends := st.emailSends + 1 }
            match env.emailSend with
            | .ok _ => st
            | .error _ => notifyOnError env st

/-- A concrete collaborator assignment whose parse step throws. -/
def envThrow : HandlerEnv :=
  ⟨.throws, fun _ => true, none, .error .timeoutError, .error .noTransporter, false⟩

/-- A concrete request missing the recipient email. -/
def fdNoEmail : FormData :=
  ⟨some "Lisbon", none, none, none, none, none, none, none, none, none⟩

/-- A concrete collaborator assignment delivering `fdNoEmail`. -/
def envNoEmail : HandlerEnv :=
  ⟨.ok fdNoEmail, fun _ => true, none, .error .timeoutError, .error .noTransporter, false⟩

/-- The default generation configuration shipped in src/config/index.js
lines 14-19: models gpt-4o-mini / gpt-3.5-turbo, `maxTokens = 4000`,
`maxRetries = 2`. -/
def cfgDefault : GenCfg := ⟨"gpt-4o-mini", "gpt-3.5-turbo", 4000, 2⟩

/-- A service whose first response is truncated content "A" and whose second
(the fallback call) is truncated content "B". -/
def envTruncTwice : Nat → CallOutcome :=
  fun n => if n = 0 then .success "A" "length" else .success "B" "length"

/-- A generation service that times out on every call. -/
def envAllTimeout : Nat → CallOutcome := fun _ => .timeout

/-- A service whose first response is truncated content "A" and whose second
(the fallback call) is a fatal HTTP 400. -/
def envTruncThenFatal : Nat → CallOutcome :=
  fun n => if n = 0 then .success "A" "length" else .httpError 400

/-- A service answering 429 on the first two calls, then a clean success. -/
def env429ThenOk : Nat → CallOutcome :=
  fun n => if n < 2 then .httpError 429 else .success "R" "stop"

/-- A service answering 429 on every call. -/
def envAll429 : Nat → CallOutcome := fun _ => .httpError 429

/-- The default generation configuration with the retry budget set to zero
(`OPENAI_MAX_RETRIES=0`). -/
def cfgMr0 : GenCfg := ⟨"gpt-4o-mini", "gpt-3.5-turbo", 4000, 0⟩

/-- The default email retry configuration (src/config/index.js line 50):
`maxRetries = 3`. -/
def cfgEmailDefault : EmailCfg := ⟨3⟩

/-- A transport that rejects every attempt with a non-retryable
authentication error. -/
def envAuthFail : Nat → MailOutcome := fun _ => .failed ⟨some "EAUTH", none⟩

/-- A transport whose first attempt fails with a connection-level socket
error (nodemailer reports a reset connection with code "ESOCKET") and whose
second attempt succeeds. -/
def envConnResetThenOk : Nat → MailOutcome :=
  fun n => if n = 0 then .failed ⟨some "ESOCKET", none⟩ else .sent "mid-1"

end TripServer

namespace TripServer

/-! ## Theorems -/

/-- Every branch of the handler writes exactly one response, and it is a
200/success one. -/
theorem handleRoute_responses (env : HandlerEnv) :
    ∃ m, (handleRoute env).responses = [⟨200, true, m⟩] := by
  unfold handleRoute notifyOnError
  repeat' split
  all_goals simp [sendResponse, initState]

/-- C1: for every inbound request — parse throw, invalid form, cache hit or
miss, whatever the background outcome — the handler's synchronous
acknowledgment exists and every response it writes is HTTP 200 with
`success: true`; it never returns a failure status. -/
theorem ack_always_success (env : HandlerEnv) :
    (handleRoute env).responses ≠ [] ∧
      ∀ r ∈ (handleRoute env).responses, r.status = 200 ∧ r.success = true := by
  obtain ⟨m, hm⟩ := handleRoute_responses env
  rw [hm]
  refine ⟨by simp, ?_⟩
  intro r hr
  rw [List.mem_singleton] at hr
  subst hr
  exact ⟨rfl, rfl⟩

/-- Witness for C1 at a concrete throwing request. -/
theorem ack_always_success_witness :
    (⟨200, true, msgCatchAll⟩ : RouteResponse).status = 200 ∧
      (⟨200, true, msgCatchAll⟩ : RouteResponse).success = true :=
  (ack_always_success envThrow).2 ⟨200, true, msgCatchAll⟩
    (by simp [handleRoute, envThrow, sendResponse, initState])

/-- C10: for every inbound request exactly one HTTP response is written, and
the `responseSent` guard makes any `sendResponse` call on a state that has
already responded a no-op. -/
theorem single_response (env : HandlerEnv) :
    (handleRoute env).responses.length = 1 ∧
      ∀ (success : Bool) (message : String) (st : HandlerState),
        st.responseSent = true → sendResponse success message st = st := by
  constructor
  · obtain ⟨m, hm⟩ := handleRoute_responses env
    rw [hm]
    rfl
  · intro success message st h
    simp [sendResponse, h]

/-- Witness for C10: the concrete throwing request gets exactly one response,
and a second `sendResponse` on its final state is a no-op. -/
theorem single_response_witness :
    (handleRoute envThrow).responses.length = 1 ∧
      sendResponse false "again" ⟨true, [⟨200, true, msgCatchAll⟩], 0, 0, 0, 0⟩ =
        ⟨true, [⟨200, true, msgCatchAll⟩], 0, 0, 0, 0⟩ :=
  ⟨(single_response envThrow).1,
    (single_response envThrow).2 false "again" ⟨true, [⟨200, true, msgCatchAll⟩], 0, 0, 0, 0⟩ rfl⟩

/-- C9: an inbound request missing the destination city or the recipient
email gets the generic accepted acknowledgment immediately and nothing else
happens: no generation call, no cache write, no delivery call. -/
theorem invalid_request_stops (env : HandlerEnv) (fd : FormData)
    (hp : env.parse = .ok fd) (hmiss : fd.city = none ∨ fd.email = none) :
    (handleRoute env).responses = [⟨200, true, msgAccepted⟩] ∧
      (handleRoute env).genCalls = 0 ∧ (handleRoute env).cacheSets = 0 ∧
      (handleRoute env).emailSends = 0 := by
  have hv : validateFormData env.emailFormat fd = none := by
    unfold validateFormData
    rcases hmiss with h | h <;> simp [h, joiCityOk, joiEmailOk]
  unfold handleRoute
  rw [hp]
  simp [hv, sendResponse, initState]

/-- Witness for C9 at a concrete request missing its recipient email. -/
theorem invalid_request_stops_witness :
    (handleRoute envNoEmail).responses = [⟨200, true, msgAccepted⟩] ∧
      (handleRoute envNoEmail).genCalls = 0 ∧ (handleRoute envNoEmail).cacheSets = 0 ∧
      (handleRoute envNoEmail).emailSends = 0 :=
  invalid_request_stops envNoEmail fdNoEmail rfl (Or.inr rfl)

/-- C8: `sendErrorNotification` never throws — whether the operator address
is unset, the transporter is null, or the transport rejects, the call
returns normally. -/
theorem notify_never_throws (fromAddr : Option String) (transporterOk : Bool)
    (send : MailOutcome) :
    sendErrorNotification fromAddr transporterOk send = .ok () := by
  unfold sendErrorNotification
  rcases fromAddr with _ | a
  · rfl
  · cases transporterOk <;> cases send <;> rfl

/-- Dropping a prefix whose elements all satisfy `p` does not change
`dropWhile p`. -/
theorem dropWhile_append_all {p : Char → Bool} (l₁ l₂ : List Char)
    (h : ∀ c ∈ l₁, p c = true) :
    (l₁ ++ l₂).dropWhile p = l₂.dropWhile p := by
  induction l₁ with
  | nil => rfl
  | cons a l ih =>
    rw [List.cons_append, List.dropWhile_cons, h a (by simp), if_pos rfl]
    exact ih (fun c hc => h c (by simp [hc]))

/-- When `dropWhile p` keeps something of `l₁`, a suffix passes through. -/
theorem dropWhile_append_pos {p : Char → Bool} (l₁ l₂ : List Char)
    (h : l₁.dropWhile p ≠ []) :
    (l₁ ++ l₂).dropWhile p = l₁.dropWhile p ++ l₂ := by
  induction l₁ with
  | nil => exact absurd rfl h
  | cons a l ih =>
    rw [List.dropWhile_cons] at h
    rw [List.cons_append, List.dropWhile_cons, List.dropWhile_cons]
    by_cases hpa : p a = true
    · rw [if_pos hpa] at h
      rw [if_pos hpa, if_pos hpa]
      exact ih h
    · rw [if_neg hpa, if_neg hpa]
      rfl

/-- An all-whitespace prefix is invisible to `trimLeftStr`. -/
theorem trimLeftStr_ws_append (w s : JsStr) (h : ∀ c ∈ w, isWsChar c = true) :
    trimLeftStr (w ++ s) = trimLeftStr s :=
  dropWhile_append_all w s h

/-- An all-whitespace suffix is invisible to `trimRightStr`. -/
theorem trimRightStr_append_ws (s w : JsStr) (h : ∀ c ∈ w, isWsChar c = true) :
    trimRightStr (s ++ w) = trimRightStr s := by
  unfold trimRightStr
  rw [List.reverse_append, dropWhile_append_all _ _ (fun c hc => h c (by simpa using hc))]

/-- The `trim` normalization ignores whitespace padding on both sides. -/
theorem trimStr_wrap (w₁ s w₂ : JsStr) (h₁ : ∀ c ∈ w₁, isWsChar c = true)
    (h₂ : ∀ c ∈ w₂, isWsChar c = true) :
    trimStr (w₁ ++ s ++ w₂) = trimStr s := by
  unfold trimStr
  rw [List.append_assoc, trimLeftStr_ws_append _ _ h₁]
  by_cases hs : trimLeftStr s = []
  · have hws : ∀ c ∈ s, isWsChar c = true := by
      intro c hc
      have := List.dropWhile_eq_nil_iff.1 hs c hc
      simpa using this
    rw [hs]
    unfold trimLeftStr
    rw [dropWhile_append_all _ _ hws]
    rw [List.dropWhile_eq_nil_iff.2 (by intro c hc; simp [h₂ c hc])]
  · unfold trimLeftStr at hs ⊢
    rw [dropWhile_append_pos _ _ hs, trimRightStr_append_ws _ _ h₂]

/-- ASCII lower-casing fixes whitespace characters. -/
theorem toLower_ws (c : Char) (h : isWsChar c = true) : c.toLower = c := by
  unfold isWsChar at h
  have h2 : ((c = ' ' ∨ c = '\t') ∨ c = '\r') ∨ c = '\n' := by
    simpa [Char.isWhitespace] using h
  rcases h2 with ((h2 | h2) | h2) | h2 <;> subst h2 <;> decide

/-- The `toLowerCase` map distributes over concatenation. -/
theorem toLowerStr_append (a b : JsStr) :
    toLowerStr (a ++ b) = toLowerStr a ++ toLowerStr b := by
  unfold toLowerStr
  exact List.map_append _ _ _

/-- Lower-casing keeps an all-whitespace list all-whitespace. -/
theorem toLowerStr_ws (w : JsStr) (h : ∀ c ∈ w, isWsChar c = true) :
    ∀ c ∈ toLowerStr w, isWsChar c = true := by
  intro c hc
  unfold toLowerStr at hc
  obtain ⟨d, hd, rfl⟩ := List.mem_map.1 hc
  rw [toLower_ws d (h d hd)]
  exact h d hd

/-- Two strings that differ only by case and surrounding whitespace have the
same `toLowerCase().trim()` normalization. -/
theorem norm_eqModCaseWs (s t : JsStr) (h : eqModCaseWs s t) :
    trimStr (toLowerStr s) = trimStr (toLowerStr t) := by
  obtain ⟨p₁, c₁, q₁, p₂, c₂, q₂, hp₁, hq₁, hp₂, hq₂, hcore, hs, ht⟩ := h
  subst hs ht
  rw [toLowerStr_append, toLowerStr_append, toLowerStr_append, toLowerStr_append]
  rw [trimStr_wrap _ _ _ (toLowerStr_ws p₁ hp₁) (toLowerStr_ws q₁ hq₁)]
  rw [trimStr_wrap _ _ _ (toLowerStr_ws p₂ hp₂) (toLowerStr_ws q₂ hq₂)]
  exact congrArg trimStr hcore

/-- The normalization map of one optional field respects `optEqModCaseWs`. -/
theorem map_norm_eq (a b : Option JsStr) (h : optEqModCaseWs a b) :
    a.map (fun s => trimStr (toLowerStr s)) = b.map (fun s => trimStr (toLowerStr s)) := by
  rcases a with _ | s <;> rcases b with _ | t
  · rfl
  · exact absurd h (by simp [optEqModCaseWs])
  · exact absurd h (by simp [optEqModCaseWs])
  · simpa using norm_eqModCaseWs s t h

/-- C5: two requests that differ only by letter case or surrounding
whitespace in the destination and interests fields produce the same cache
fingerprint, for every digest function. -/
theorem fingerprint_case_ws (digest : RouteKeyData → JsStr)
    (city₁ city₂ interests₁ interests₂ startDate endDate budget people : Option JsStr)
    (hc : optEqModCaseWs city₁ city₂) (hi : optEqModCaseWs interests₁ interests₂) :
    generateKey digest city₁ startDate endDate budget interests₁ people =
      generateKey digest city₂ startDate endDate budget interests₂ people := by
  unfold generateKey
  have : normalizeKeyData city₁ startDate endDate budget interests₁ people =
      normalizeKeyData city₂ startDate endDate budget interests₂ people := by
    unfold normalizeKeyData
    rw [map_norm_eq city₁ city₂ hc, map_norm_eq interests₁ interests₂ hi]
  rw [this]

/-- Witness for C5: " Paris" with shouting case versus trailing-space
"PARIS " collide on the same fingerprint. -/
theorem fingerprint_case_ws_witness :
    generateKey (fun _ => []) (some " Paris".toList) none none none none none =
      generateKey (fun _ => []) (some "PARIS ".toList) none none none none none :=
  fingerprint_case_ws (fun _ => []) (some " Paris".toList) (some "PARIS ".toList)
    none none none none none none
    ⟨[' '], "Paris".toList, [], [], "PARIS".toList, [' '],
      by decide, by decide, by decide, by decide, by decide, by decide, by decide⟩
    trivial

/-- C6: with the cache enabled and a positive TTL, a `get` at the instant of
a `set` returns the stored document, and a `get` at any instant strictly past
`createdAt + ttlSeconds` is a miss — an expired-but-not-yet-swept entry is
never returned as a hit. -/
theorem cache_roundtrip_ttl (cfg : CacheCfg) (digest : RouteKeyData → JsStr)
    (store : CacheStore) (now after : Nat)
    (city startDate endDate budget interests people : Option JsStr) (route : JsStr)
    (hen : cfg.enabled = true) (httl : 0 < cfg.ttl) :
    cacheGet cfg digest
        (cacheSet cfg digest store now city startDate endDate budget interests people route).1
        now city startDate endDate budget interests people =
      some ⟨route, city, startDate, endDate, budget, interests, people, now⟩ ∧
    (now + cfg.ttl * 1000 < after →
      cacheGet cfg digest
          (cacheSet cfg digest store now city startDate endDate budget interests people route).1
          after city startDate endDate budget interests people = none) := by
  have httl0 : ¬cfg.ttl = 0 := Nat.pos_iff_ne_zero.1 httl
  unfold cacheGet cacheSet storeSet storeGet
  rw [hen]
  simp only [if_true, if_neg httl0, List.lookup]
  constructor
  · rw [beq_self_eq_true]
    simp only []
    rw [if_neg (by omega)]
  · intro hafter
    rw [beq_self_eq_true]
    simp only []
    rw [if_pos (by omega)]

/-- Witness for C6: a concrete set at instant 0 with the default 3600-second
TTL is a hit at instant 0 and a miss at instant 3600001 ms. -/
theorem cache_roundtrip_ttl_witness :
    cacheGet ⟨true, 3600⟩ (fun _ => []) (cacheSet ⟨true, 3600⟩ (fun _ => []) [] 0
        (some "Lisbon".toList) none none none none none "doc".toList).1
        0 (some "Lisbon".toList) none none none none none =
      some ⟨"doc".toList, some "Lisbon".toList, none, none, none, none, none, 0⟩ ∧
    cacheGet ⟨true, 3600⟩ (fun _ => []) (cacheSet ⟨true, 3600⟩ (fun _ => []) [] 0
        (some "Lisbon".toList) none none none none none "doc".toList).1
        3600001 (some "Lisbon".toList) none none none none none = none :=
  ⟨(cache_roundtrip_ttl ⟨true, 3600⟩ (fun _ => []) [] 0 3600001
      (some "Lisbon".toList) none none none none none "doc".toList rfl (by decide)).1,
    (cache_roundtrip_ttl ⟨true, 3600⟩ (fun _ => []) [] 0 3600001
      (some "Lisbon".toList) none none none none none "doc".toList rfl (by decide)).2
      (by norm_num)⟩

/-- Unfolding `generateRoute` on an HTTP error response. -/
theorem generateRoute_http (cfg : GenCfg) (env : Nat → CallOutcome) (idx mt : Nat)
    (model : String) (useFb : Bool) (r status : Nat)
    (h : env idx = .httpError status) :
    generateRoute cfg env idx mt model useFb r =
      if r < cfg.maxRetries ∧ (status = 429 ∨ 500 ≤ status) then
        ((generateRoute cfg env (idx + 1) mt model useFb (r + 1)).1,
          ⟨model, mt⟩ :: (generateRoute cfg env (idx + 1) mt model useFb (r + 1)).2)
      else
        (.error (.apiError status), [⟨model, mt⟩]) := by
  rw [generateRoute, h]
  rfl

/-- Unfolding `generateRoute` on a successful response with nonempty content
and finish reason. -/
theorem generateRoute_success (cfg : GenCfg) (env : Nat → CallOutcome) (idx mt : Nat)
    (model : String) (useFb : Bool) (r : Nat) (c fr : String)
    (h : env idx = .success c fr) (hc : ¬c = "") (hfr : ¬fr = "") :
    generateRoute cfg env idx mt model useFb r =
      if fr = "length" ∧ useFb = true ∧ model ≠ cfg.fallbackModel ∧ r = 0 then
        match (generateRoute cfg env (idx + 1) (min 4000 (mt + 2000)) cfg.fallbackModel false 0).1 with
        | .ok res =>
          (.ok res,
            ⟨model, mt⟩ ::
              (generateRoute cfg env (idx + 1) (min 4000 (mt + 2000)) cfg.fallbackModel false 0).2)
        | .error _ =>
          (.ok ⟨c, fr, model⟩,
            ⟨model, mt⟩ ::
              (generateRoute cfg env (idx + 1) (min 4000 (mt + 2000)) cfg.fallbackModel false 0).2)
      else
        (.ok ⟨c, fr, model⟩, [⟨model, mt⟩]) := by
  rw [generateRoute, h]
  simp only [if_neg hc, if_neg hfr]
  rfl

/-- Unfolding `generateRoute` on a timeout. -/
theorem generateRoute_timeout (cfg : GenCfg) (env : Nat → CallOutcome) (idx mt : Nat)
    (model : String) (useFb : Bool) (r : Nat)
    (h : env idx = .timeout) :
    generateRoute cfg env idx mt model useFb r =
      if r < cfg.maxRetries then
        ((generateRoute cfg env (idx + 1) mt model useFb (r + 1)).1,
          ⟨model, mt⟩ :: (generateRoute cfg env (idx + 1) mt model useFb (r + 1)).2)
      else if useFb = true ∧ model ≠ cfg.fallbackModel ∧ r = 0 then
        ((generateRoute cfg env (idx + 1) mt cfg.fallbackModel false 0).1,
          ⟨model, mt⟩ :: (generateRoute cfg env (idx + 1) mt cfg.fallbackModel false 0).2)
      else
        (.error .timeoutError, [⟨model, mt⟩]) := by
  rw [generateRoute, h]
  rfl

/-- A run that sees 429 until the absolute call index reaches `K` and then a
clean success consumes the remaining retry budget and returns the success. -/
theorem gen429_then_success (cfg : GenCfg) (c fr : String)
    (hc : ¬c = "") (hfr : ¬fr = "") (hlen : fr ≠ "length")
    (mt : Nat) (model : String) (useFb : Bool) :
    ∀ d r idx K, r + d = cfg.maxRetries → K = idx + d →
      generateRoute cfg
        (fun n => if n < K then CallOutcome.httpError 429 else CallOutcome.success c fr)
        idx mt model useFb r
        = (.ok ⟨c, fr, model⟩, List.replicate (d + 1) ⟨model, mt⟩) := by
  intro d
  induction d with
  | zero =>
    intro r idx K hr hK
    have henv : (fun n => if n < K then CallOutcome.httpError 429
        else CallOutcome.success c fr) idx = CallOutcome.success c fr := by
      simp only []
      rw [if_neg (by omega)]
    rw [generateRoute_success cfg _ idx mt model useFb r c fr henv hc hfr]
    rw [if_neg (by rintro ⟨h1, -⟩; exact hlen h1)]
    rfl
  | succ d ih =>
    intro r idx K hr hK
    have henv : (fun n => if n < K then CallOutcome.httpError 429
        else CallOutcome.success c fr) idx = CallOutcome.httpError 429 := by
      simp only []
      rw [if_pos (by omega)]
    rw [generateRoute_http cfg _ idx mt model useFb r 429 henv]
    rw [if_pos ⟨by omega, Or.inl rfl⟩]
    rw [ih (r + 1) (idx + 1) K (by omega) (by omega)]
    rfl

/-- A run that sees 429 on every call exhausts the retry budget and throws
the fatal API error. -/
theorem gen429_exhausts (cfg : GenCfg) (mt : Nat) (model : String) (useFb : Bool) :
    ∀ d r idx, r + d = cfg.maxRetries →
      generateRoute cfg envAll429 idx mt model useFb r
        = (.error (.apiError 429), List.replicate (d + 1) ⟨model, mt⟩) := by
  intro d
  induction d with
  | zero =>
    intro r idx hr
    rw [generateRoute_http cfg envAll429 idx mt model useFb r 429 rfl]
    rw [if_neg (by rintro ⟨h1, -⟩; omega)]
    rfl
  | succ d ih =>
    intro r idx hr
    rw [generateRoute_http cfg envAll429 idx mt model useFb r 429 rfl]
    rw [if_pos ⟨by omega, Or.inl rfl⟩]
    rw [ih (r + 1) (idx + 1) (by omega)]
    rfl

/-- C3: a generation call answered 429 exactly `maxRetries` times and then a
clean success returns the successful result (after `maxRetries + 1` HTTP
calls); a call answered 429 on `maxRetries + 1` consecutive attempts throws
the fatal API error instead. -/
theorem retry429_bound (cfg : GenCfg) (c fr : String)
    (hc : ¬c = "") (hfr : ¬fr = "") (hlen : fr ≠ "length") :
    generateRouteTop cfg
        (fun n => if n < cfg.maxRetries then CallOutcome.httpError 429
          else CallOutcome.success c fr)
        = (.ok ⟨c, fr, cfg.defaultModel⟩,
            List.replicate (cfg.maxRetries + 1) ⟨cfg.defaultModel, cfg.maxTokens⟩) ∧
      generateRouteTop cfg envAll429
        = (.error (.apiError 429),
            List.replicate (cfg.maxRetries + 1) ⟨cfg.defaultModel, cfg.maxTokens⟩) := by
  unfold generateRouteTop
  constructor
  · exact gen429_then_success cfg c fr hc hfr hlen cfg.maxTokens cfg.defaultModel true
      cfg.maxRetries 0 0 cfg.maxRetries (by omega) (by omega)
  · exact gen429_exhausts cfg cfg.maxTokens cfg.defaultModel true cfg.maxRetries 0 0 (by omega)

/-- Witness for C3 at the default configuration (`maxRetries = 2`): two 429s
then success returns the success after three calls; three 429s throw. -/
theorem retry429_bound_witness :
    generateRouteTop cfgDefault env429ThenOk
        = (.ok ⟨"R", "stop", "gpt-4o-mini"⟩, List.replicate 3 ⟨"gpt-4o-mini", 4000⟩) ∧
      generateRouteTop cfgDefault envAll429
        = (.error (.apiError 429), List.replicate 3 ⟨"gpt-4o-mini", 4000⟩) :=
  retry429_bound cfgDefault "R" "stop" (by decide) (by decide) (by decide)

/-- Amended C2: a truncated primary response triggers exactly one
fallback-model call whose token budget is `min 4000 (maxTokens + 2000)`
(strictly larger than the original only when `maxTokens < 4000`); if the
fallback call throws a fatal error, `generateRoute` returns the original
truncated result; but if the fallback call itself truncates, `generateRoute`
returns the fallback call's content, not the original. -/
theorem truncation_fallback_amended (cfg : GenCfg) (env : Nat → CallOutcome) (c₁ : String)
    (hc₁ : ¬c₁ = "") (hm : cfg.defaultModel ≠ cfg.fallbackModel)
    (h0 : env 0 = .success c₁ "length") :
    (∀ c₂, ¬c₂ = "" → env 1 = .success c₂ "length" →
        generateRouteTop cfg env =
          (.ok ⟨c₂, "length", cfg.fallbackModel⟩,
            [⟨cfg.defaultModel, cfg.maxTokens⟩,
              ⟨cfg.fallbackModel, min 4000 (cfg.maxTokens + 2000)⟩])) ∧
    (∀ s, ¬(s = 429 ∨ 500 ≤ s) → env 1 = .httpError s →
        generateRouteTop cfg env =
          (.ok ⟨c₁, "length", cfg.defaultModel⟩,
            [⟨cfg.defaultModel, cfg.maxTokens⟩,
              ⟨cfg.fallbackModel, min 4000 (cfg.maxTokens + 2000)⟩])) := by
  unfold generateRouteTop
  rw [generateRoute_success cfg env 0 cfg.maxTokens cfg.defaultModel true 0 c₁ "length" h0 hc₁
    (by decide)]
  rw [if_pos ⟨rfl, rfl, hm, rfl⟩]
  constructor
  · intro c₂ hc₂ h1
    rw [generateRoute_success cfg env 1 (min 4000 (cfg.maxTokens + 2000)) cfg.fallbackModel
      false 0 c₂ "length" h1 hc₂ (by decide)]
    rw [if_neg (by rintro ⟨-, hfb, -⟩; exact Bool.false_ne_true hfb)]
  · intro s hs h1
    rw [generateRoute_http cfg env 1 (min 4000 (cfg.maxTokens + 2000)) cfg.fallbackModel
      false 0 s h1]
    rw [if_neg (by rintro ⟨-, h2⟩; exact hs h2)]

/-- Counterexample to C2 as stated: at the default configuration
(`maxTokens = 4000`) with both calls truncating, the fallback call's token
budget `min 4000 (4000 + 2000) = 4000` is not larger, and the function
returns the fallback call's content "B", not the original truncated
content "A". -/
theorem truncation_fallback_cex :
    generateRouteTop cfgDefault envTruncTwice =
        (.ok ⟨"B", "length", "gpt-3.5-turbo"⟩,
          [⟨"gpt-4o-mini", 4000⟩, ⟨"gpt-3.5-turbo", 4000⟩]) ∧
      (generateRouteTop cfgDefault envTruncTwice).1 ≠
        .ok ⟨"A", "length", "gpt-4o-mini"⟩ := by
  have h1 : generateRouteTop cfgDefault envTruncTwice =
      (.ok ⟨"B", "length", "gpt-3.5-turbo"⟩,
        [⟨"gpt-4o-mini", 4000⟩, ⟨"gpt-3.5-turbo", 4000⟩]) := by
    unfold generateRouteTop
    rw [generateRoute_success cfgDefault envTruncTwice 0 cfgDefault.maxTokens
      cfgDefault.defaultModel true 0 "A" "length" rfl (by decide) (by decide)]
    rw [if_pos ⟨rfl, rfl, by decide, rfl⟩]
    rw [generateRoute_success cfgDefault envTruncTwice 1
      (min 4000 (cfgDefault.maxTokens + 2000)) cfgDefault.fallbackModel false 0 "B" "length"
      rfl (by decide) (by decide)]
    rw [if_neg (by rintro ⟨-, hfb, -⟩; exact Bool.false_ne_true hfb)]
    rfl
  refine ⟨h1, ?_⟩
  rw [h1]
  simp

/-- Witness for the amended C2 at the default configuration: the
fallback-truncates case returns "B", the fallback-fatal case returns the
original "A"; both traces show exactly one fallback call with budget 4000. -/
theorem truncation_fallback_amended_witness :
    generateRouteTop cfgDefault envTruncTwice =
        (.ok ⟨"B", "length", "gpt-3.5-turbo"⟩,
          [⟨"gpt-4o-mini", 4000⟩, ⟨"gpt-3.5-turbo", 4000⟩]) ∧
      generateRouteTop cfgDefault envTruncThenFatal =
        (.ok ⟨"A", "length", "gpt-4o-mini"⟩,
          [⟨"gpt-4o-mini", 4000⟩, ⟨"gpt-3.5-turbo", 4000⟩]) := by
  constructor
  · have := (truncation_fallback_amended cfgDefault envTruncTwice "A" (by decide) (by decide)
      rfl).1 "B" (by decide) rfl
    simpa using this
  · have := (truncation_fallback_amended cfgDefault envTruncThenFatal "A" (by decide) (by decide)
      rfl).2 400 (by decide) rfl
    simpa using this

/-- A run that times out on every call with at least one retry configured
exhausts the budget and throws the timeout error without any fallback call:
at the last attempt `retryCount = maxRetries ≥ 1`, so the `retryCount === 0`
side condition of the timeout fallback can never hold. -/
theorem genTimeout_exhausts (cfg : GenCfg) (mt : Nat) (model : String) (useFb : Bool)
    (hmr : 1 ≤ cfg.maxRetries) :
    ∀ d r idx, r + d = cfg.maxRetries →
      generateRoute cfg envAllTimeout idx mt model useFb r
        = (.error .timeoutError, List.replicate (d + 1) ⟨model, mt⟩) := by
  intro d
  induction d with
  | zero =>
    intro r idx hr
    rw [generateRoute_timeout cfg envAllTimeout idx mt model useFb r rfl]
    rw [if_neg (by omega)]
    rw [if_neg (by rintro ⟨-, -, h0⟩; omega)]
    rfl
  | succ d ih =>
    intro r idx hr
    rw [generateRoute_timeout cfg envAllTimeout idx mt model useFb r rfl]
    rw [if_pos (by omega)]
    rw [ih (r + 1) (idx + 1) (by omega)]
    rfl

/-- Amended C4: the post-timeout fallback call of
src/services/openaiService.js line 216 is guarded by `retryCount === 0` and
therefore fires only when `maxRetries = 0`; with `maxRetries = 0` a timed-out
primary call is followed by exactly one fallback-model call before the
timeout error is raised, while with `maxRetries ≥ 1` the timeout error is
raised after the retries with no fallback call at all. -/
theorem timeout_fallback_amended (cfg : GenCfg) (hm : cfg.defaultModel ≠ cfg.fallbackModel) :
    (cfg.maxRetries = 0 →
        generateRouteTop cfg envAllTimeout
          = (.error .timeoutError,
              [⟨cfg.defaultModel, cfg.maxTokens⟩, ⟨cfg.fallbackModel, cfg.maxTokens⟩])) ∧
    (1 ≤ cfg.maxRetries →
        generateRouteTop cfg envAllTimeout
          = (.error .timeoutError,
              List.replicate (cfg.maxRetries + 1) ⟨cfg.defaultModel, cfg.maxTokens⟩)) := by
  constructor
  · intro hmr
    unfold generateRouteTop
    rw [generateRoute_timeout cfg envAllTimeout 0 cfg.maxTokens cfg.defaultModel true 0 rfl]
    rw [if_neg (by omega)]
    rw [if_pos ⟨rfl, hm, rfl⟩]
    rw [generateRoute_timeout cfg envAllTimeout 1 cfg.maxTokens cfg.fallbackModel false 0 rfl]
    rw [if_neg (by omega)]
    rw [if_neg (by rintro ⟨hfb, -, -⟩; exact Bool.false_ne_true hfb)]
  · intro hmr
    unfold generateRouteTop
    exact genTimeout_exhausts cfg cfg.maxTokens cfg.defaultModel true hmr
      cfg.maxRetries 0 0 (by omega)

/-- Counterexample to C4 as stated: at the default configuration
(`maxRetries = 2`) a call that times out on every attempt raises the timeout
error after three primary-model calls — no fallback-model call is made. -/
theorem timeout_fallback_cex :
    generateRouteTop cfgDefault envAllTimeout
      = (.error .timeoutError,
          [⟨"gpt-4o-mini", 4000⟩, ⟨"gpt-4o-mini", 4000⟩, ⟨"gpt-4o-mini", 4000⟩]) := by
  unfold generateRouteTop
  exact genTimeout_exhausts cfgDefault cfgDefault.maxTokens cfgDefault.defaultModel true
    (by decide) cfgDefault.maxRetries 0 0 (by omega)

/-- Witness for the amended C4: with `maxRetries = 0` the fallback-model call
happens before the timeout error; with the default `maxRetries = 2` it does
not. -/
theorem timeout_fallback_amended_witness :
    generateRouteTop cfgMr0 envAllTimeout
        = (.error .timeoutError, [⟨"gpt-4o-mini", 4000⟩, ⟨"gpt-3.5-turbo", 4000⟩]) ∧
      generateRouteTop cfgDefault envAllTimeout
        = (.error .timeoutError, List.replicate 3 ⟨"gpt-4o-mini", 4000⟩) :=
  ⟨(timeout_fallback_amended cfgMr0 (by decide)).1 rfl,
    (timeout_fallback_amended cfgDefault (by decide)).2 (by decide)⟩

/-- Unfolding `sendRouteEmail` when the transporter and recipient guards pass
and the current attempt resolves. -/
theorem sendRouteEmail_sent (cfg : EmailCfg) (recipient : String) (env : Nat → MailOutcome)
    (idx retryCount : Nat) (mid : String) (hr : ¬recipient = "")
    (h : env idx = .sent mid) :
    sendRouteEmail cfg true (some recipient) env idx retryCount = (.ok ⟨true, mid⟩, 1) := by
  rw [sendRouteEmail]
  rw [if_neg (by simp), if_neg (by simp [hr]), h]

/-- Unfolding `sendRouteEmail` when the guards pass and the current attempt
rejects. -/
theorem sendRouteEmail_failed (cfg : EmailCfg) (recipient : String) (env : Nat → MailOutcome)
    (idx retryCount : Nat) (e : MailErr) (hr : ¬recipient = "")
    (h : env idx = .failed e) :
    sendRouteEmail cfg true (some recipient) env idx retryCount =
      if retryCount < cfg.maxRetries ∧ mailShouldRetry e then
        ((sendRouteEmail cfg true (some recipient) env (idx + 1) (retryCount + 1)).1,
          (sendRouteEmail cfg true (some recipient) env (idx + 1) (retryCount + 1)).2 + 1)
      else
        (.error (.transport e), 1) := by
  rw [sendRouteEmail]
  rw [if_neg (by simp), if_neg (by simp [hr]), h]
  rfl

/-- Amended C7: a transport failing once with a connection-level error and
then succeeding makes `sendRouteEmail` return its success object
`{success: true, messageId}` after two transport attempts — the returned
object itself carries no attempt counter; a transport rejecting the first
attempt with a non-retryable error makes `sendRouteEmail` throw that error
after exactly one attempt — no `success == false` outcome object is ever
returned. -/
theorem delivery_retry_amended (cfg : EmailCfg) (env env2 : Nat → MailOutcome)
    (addr mid : String) (e : MailErr)
    (hto : ¬addr = "") (hmr : 1 ≤ cfg.maxRetries)
    (h0 : env 0 = .failed ⟨some "ESOCKET", none⟩) (h1 : env 1 = .sent mid)
    (hnr : ¬mailShouldRetry e) (h2 : env2 0 = .failed e) :
    sendRouteEmailTop cfg true (some addr) env = (.ok ⟨true, mid⟩, 2) ∧
      sendRouteEmailTop cfg true (some addr) env2 = (.error (.transport e), 1) := by
  constructor
  · unfold sendRouteEmailTop
    rw [sendRouteEmail_failed cfg addr env 0 0 ⟨some "ESOCKET", none⟩ hto h0]
    rw [if_pos ⟨by omega, Or.inr (Or.inr (Or.inl rfl))⟩]
    rw [sendRouteEmail_sent cfg addr env 1 1 mid hto h1]
  · unfold sendRouteEmailTop
    rw [sendRouteEmail_failed cfg addr env2 0 0 e hto h2]
    rw [if_neg (by rintro ⟨-, hsr⟩; exact hnr hsr)]

/-- Counterexample to C7 as stated: on a non-retryable first-attempt
rejection (code "EAUTH"), `sendRouteEmail` does not return any outcome with
`success == false` — it throws the transport error after one attempt. -/
theorem delivery_retry_cex :
    sendRouteEmailTop cfgEmailDefault true (some "a@b.com") envAuthFail
      = (.error (.transport ⟨some "EAUTH", none⟩), 1) := by
  unfold sendRouteEmailTop
  rw [sendRouteEmail_failed cfgEmailDefault "a@b.com" envAuthFail 0 0 ⟨some "EAUTH", none⟩
    (by simp) rfl]
  rw [if_neg (by rintro ⟨-, h | h | h | ⟨rc, hrc, -⟩⟩ <;> simp_all)]

/-- Witness for the amended C7 at the default configuration
(`maxRetries = 3`). -/
theorem delivery_retry_amended_witness :
    sendRouteEmailTop cfgEmailDefault true (some "a@b.com") envConnResetThenOk
        = (.ok ⟨true, "mid-1"⟩, 2) ∧
      sendRouteEmailTop cfgEmailDefault true (some "a@b.com") envAuthFail
        = (.error (.transport ⟨some "EAUTH", none⟩), 1) :=
  delivery_retry_amended cfgEmailDefault envConnResetThenOk envAuthFail "a@b.com" "mid-1"
    ⟨some "EAUTH", none⟩ (by simp) (by decide) rfl rfl
    (by rintro (h | h | h | ⟨rc, hrc, -⟩) <;> simp_all) rfl

end TripServer
